import Mathlib

/-
Verification of the "gg" rules engine (Game of the Generals, main.go).

Shallow embedding notes:
- Go strings stay Lean `String` wherever arbitrary strings can flow
  (piece codes, players, commands); closed enumerations that are only
  ever compared against their own constants (game state, move type,
  challenge result, command kind) become inductive types.
- The 8x9 board array becomes a total function `Nat → Nat → GGSquare`;
  every board access performed by the embedded code is within bounds
  for the regex-validated commands the handlers receive.
- Go's `int` is embedded as `Int`.
-/

-- Board dimensions (main.go: const rows = 8, files = 9).
def rows : Nat := 8

def files : Nat := 9

-- Game states (main.go: GGGameState string constants).
inductive GGGameState where
  | PRE_SETUP
  | SETUP
  | IN_PROGRESS
  | GAME_OVER
deriving DecidableEq

-- Move types (main.go: GGMoveType string constants).
inductive GGMoveType where
  | MOVE
  | CHALLENGE
  | INVALID
deriving DecidableEq

-- Challenge results (main.go: GGChallengeResult string constants).
inductive GGChallengeResult where
  | WIN
  | LOSE
  | DRAW
deriving DecidableEq

/-- GGPiece (main.go 172-176): a piece is a (code, player) pair of strings.
Codes such as "FLG" and players such as "W" are plain strings in the source;
a zero value (both fields empty) marks an empty square. -/
structure GGPiece where
  code : String
  player : String
deriving DecidableEq

/-- GGSquare (main.go 130-133): a board cell holding one piece (possibly the
zero piece). -/
structure GGSquare where
  piece : GGPiece
deriving DecidableEq

/-- IsEmpty (main.go 163-165): a square is empty when its piece equals the
zero value GGPiece{}. -/
def GGSquare.IsEmpty (s : GGSquare) : Bool :=
  s.piece = GGPiece.mk "" ""

/-- To (main.go 144-160): move-type computation from a source square to a
target square, in the source's exact check order. -/
def GGSquare.To (s : GGSquare) (targetSquare : GGSquare) : GGMoveType :=
  if s.IsEmpty then GGMoveType.INVALID
  else if s.piece.player = targetSquare.piece.player then GGMoveType.INVALID
  else if targetSquare.IsEmpty then GGMoveType.MOVE
  else GGMoveType.CHALLENGE

/-- Power (main.go 181-201): the fixed rank-to-strength table. The Go map
lookup yields the zero value 0 for any code outside the table. -/
def GGPiece.Power (p : GGPiece) : Int :=
  if p.code = "5*G" then 12
  else if p.code = "4*G" then 11
  else if p.code = "3*G" then 10
  else if p.code = "2*G" then 9
  else if p.code = "1*G" then 8
  else if p.code = "COL" then 7
  else if p.code = "LTC" then 6
  else if p.code = "MAJ" then 5
  else if p.code = "CPT" then 4
  else if p.code = "1LT" then 3
  else if p.code = "2LT" then 2
  else if p.code = "SGT" then 1
  else if p.code = "PVT" then 0
  else if p.code = "SPY" then 99
  else if p.code = "FLG" then -1
  else 0

/-- resolveChallenge (main.go 646-688): combat resolution, in the source's
exact rule order (Flag, same-code draw, Spy, Private, target-Spy, power). -/
def resolveChallenge (challenger : GGPiece) (target : GGPiece) : GGChallengeResult :=
  if challenger.code = "FLG" then
    (if target.code = "FLG" then GGChallengeResult.WIN else GGChallengeResult.LOSE)
  else if challenger.code = target.code then GGChallengeResult.DRAW
  else if challenger.code = "SPY" then
    (if target.code ≠ "PVT" then GGChallengeResult.WIN else GGChallengeResult.LOSE)
  else if challenger.code = "PVT" then
    (if target.code = "SPY" then GGChallengeResult.WIN else GGChallengeResult.LOSE)
  else if target.code = "SPY" then GGChallengeResult.LOSE
  else if challenger.Power > target.Power then GGChallengeResult.WIN
  else GGChallengeResult.LOSE

/-- The fifteen piece codes declared in main.go 67-81. -/
def allRanks : List String :=
  ["5*G", "4*G", "3*G", "2*G", "1*G", "COL", "LTC", "MAJ",
   "CPT", "1LT", "2LT", "SGT", "PVT", "SPY", "FLG"]

/-- isOneSquareAway (main.go 691-696): both coordinate deltas must lie in
[-1, 1]. -/
def isOneSquareAway (fromX fromY toX toY : Int) : Bool :=
  let diffX := fromX - toX
  let diffY := fromY - toY
  diffX ≥ -1 && diffX ≤ 1 && diffY ≥ -1 && diffY ≤ 1

/-- GGBoard (main.go 128): the 8x9 grid, embedded as a total function from
(row, file) indices to squares. All indexing done by the embedded handlers is
within 0..7 x 0..8 for regex-validated commands. -/
def GGBoard : Type := Nat → Nat → GGSquare

/-- The all-empty board produced by GGBoard{} at engine construction. -/
def emptyBoard : GGBoard := fun _ _ => ⟨⟨"", ""⟩⟩

/-- Functional update of one board cell, embedding a Go assignment
`g.board[x][y].piece = p` / `square.Clear()`. -/
def boardSet (b : GGBoard) (x y : Nat) (sq : GGSquare) : GGBoard :=
  fun r c => if r = x ∧ c = y then sq else b r c

/-- GG (main.go 112-125): the game-logic fields of the application state.
The ancillary dependencies (logger, in, out, gui) and the command stack are
I/O collaborators and carry no game logic. -/
structure GG where
  status : GGGameState
  winner : String
  playerToMove : String
  board : GGBoard

/-- Scan of the full board performed by DetermineResult (main.go 321-331):
whether any square holds a flag of the given player. -/
def flagFound (b : GGBoard) (p : String) : Bool :=
  (List.range rows).any fun r =>
    (List.range files).any fun c =>
      ((b r c).piece.code == "FLG") && ((b r c).piece.player == p)

/-- Scan of one rank performed by DetermineResult (main.go 343-347 and
351-355): whether any square of row `r` holds a flag of player `p`. -/
def rankFlag (b : GGBoard) (r : Nat) (p : String) : Bool :=
  (List.range files).any fun c =>
    ((b r c).piece.player == p) && ((b r c).piece.code == "FLG")

/-- First block of DetermineResult (main.go 317-340): when the game is in
progress and exactly one player's flag remains, that player wins. -/
def captureCheck (g : GG) : GG :=
  if g.status = GGGameState.IN_PROGRESS then
    if flagFound g.board "W" && !(flagFound g.board "B") then
      { g with winner := "W", status := GGGameState.GAME_OVER }
    else if flagFound g.board "B" && !(flagFound g.board "W") then
      { g with winner := "B", status := GGGameState.GAME_OVER }
    else g
  else g

/-- Second block of DetermineResult (main.go 342-348): a white flag anywhere
on row index 7 ends the game in White's favour, regardless of status. -/
def whiteRankCheck (g : GG) : GG :=
  if rankFlag g.board 7 "W" then
    { g with status := GGGameState.GAME_OVER, winner := "W" }
  else g

/-- Third block of DetermineResult (main.go 350-356): a black flag anywhere
on row index 0 ends the game in Black's favour, regardless of status. -/
def blackRankCheck (g : GG) : GG :=
  if rankFlag g.board 0 "B" then
    { g with status := GGGameState.GAME_OVER, winner := "B" }
  else g

/-- DetermineResult (main.go 313-357): the three win checks run in sequence
on the same board; the black rank check runs last. -/
def GG.DetermineResult (g : GG) : GG :=
  blackRankCheck (whiteRankCheck (captureCheck g))

/-- The alpha file-letter table of squareAddressToCoordinates (main.go 620). -/
def alphaList : List String :=
  ["A", "B", "C", "D", "E", "F", "G", "H", "I"]

/-- squareAddressToCoordinates (main.go 615-622): renders a (file index,
row index) pair as a board label, returning "" when x > rows or y > files.
The Go slice panic on a negative index is outside every claim; the embedding
returns alphaList.getD, which agrees with the source on all indices the
program ever passes. -/
def squareAddressToCoordinates (x y : Int) : String :=
  if x > (rows : Int) ∨ y > (files : Int) then ""
  else alphaList.getD x.toNat "" ++ toString (y + 1)

/-- Single-character strconv.Atoi with the error discarded (main.go 627):
a digit yields its value, anything else yields Go's zero value 0. -/
def atoiChar (c : Char) : Int :=
  if '0' ≤ c ∧ c ≤ '9' then ((c.toNat - '0'.toNat : Nat) : Int) else 0

/-- The filesMap lookup of coordinatesToSquareAddress (main.go 630-640);
absent keys yield the Go map zero value 0. -/
def filesMapLookup (s : String) : Int :=
  if s = "A" then 0
  else if s = "B" then 1
  else if s = "C" then 2
  else if s = "D" then 3
  else if s = "E" then 4
  else if s = "F" then 5
  else if s = "G" then 6
  else if s = "H" then 7
  else if s = "I" then 8
  else 0

/-- coordinatesToSquareAddress (main.go 626-643): decodes a label into a
(row index, file index) pair: row = digit - 1, file = letter lookup. Byte
indexing coordinates[0]/coordinates[1] is embedded as List.getD on the
character list; every caller passes a regex-validated two-character label. -/
def coordinatesToSquareAddress (coordinates : String) : Int × Int :=
  let rowNumber := atoiChar (coordinates.data.getD 1 ' ')
  let fileName := String.mk [coordinates.data.getD 0 ' ']
  (rowNumber - 1, filesMapLookup fileName)

/-- The whitespace class of Go's unicode.IsSpace restricted to Latin-1, as
used by strings.TrimSpace and strings.Fields (main.go 523-524). -/
def goIsSpace (c : Char) : Bool :=
  (c == ' ') || (c == '\t') || (c == '\n') || (c == Char.ofNat 11) ||
  (c == Char.ofNat 12) || (c == '\r') || (c == Char.ofNat 133) || (c == Char.ofNat 160)

/-- strings.TrimSpace (main.go 523): drop leading and trailing whitespace. -/
def goTrimSpace (s : String) : String :=
  String.mk (((s.data.dropWhile goIsSpace).reverse.dropWhile goIsSpace).reverse)

/-- Accumulator loop behind strings.Fields: split around runs of whitespace,
dropping empty fields. -/
def fieldsAux : List Char → List Char → List String
  | [], acc => if acc.isEmpty then [] else [String.mk acc.reverse]
  | ch :: rest, acc =>
      if goIsSpace ch then
        (if acc.isEmpty then [] else [String.mk acc.reverse]) ++ fieldsAux rest []
      else fieldsAux rest (ch :: acc)

/-- strings.Fields (main.go 524). -/
def goFields (s : String) : List String := fieldsAux s.data []

/-- strings.Join with separator " " (main.go 524). -/
def joinSpace : List String → String
  | [] => ""
  | [s] => s
  | s :: rest => s ++ " " ++ joinSpace rest

/-- StdinInput.Read normalization (main.go 517-526): trim surrounding
whitespace, then collapse internal whitespace runs to single spaces. -/
def normalizeCommand (cmd : String) : String :=
  joinSpace (goFields (goTrimSpace cmd))

/-- strings.Split on a single space (main.go 406, 446), keeping empty
tokens between consecutive separators exactly as Go does. -/
def splitOnSpace : List Char → List Char → List String
  | [], acc => [String.mk acc.reverse]
  | ch :: rest, acc =>
      if ch = ' ' then String.mk acc.reverse :: splitOnSpace rest []
      else splitOnSpace rest (ch :: acc)

/-- Token list of a command string, as produced by strings.Split(cmd, " "). -/
def splitTokens (cmd : String) : List String := splitOnSpace cmd.data []

/-- Matcher for setCmdRegex = `^SET [WB] [ABCDEFGHI][12345678] .{3}$`
(main.go 103). Go's `.` matches any rune except newline, and the pattern is
anchored on both sides, so a match is a whole-string match. -/
def setCmdRegex (s : String) : Bool :=
  match s.data with
  | ['S', 'E', 'T', ' ', p, ' ', c1, c2, ' ', r1, r2, r3] =>
      (p == 'W' || p == 'B') &&
      ['A', 'B', 'C', 'D', 'E', 'F', 'G', 'H', 'I'].contains c1 &&
      ['1', '2', '3', '4', '5', '6', '7', '8'].contains c2 &&
      (r1 != '\n') && (r2 != '\n') && (r3 != '\n')
  | _ => false

/-- Matcher for mvCmdRegex = `^MV [ABCDEFGHI][12345678] [ABCDEFGHI][12345678]$`
(main.go 104). -/
def mvCmdRegex (s : String) : Bool :=
  match s.data with
  | ['M', 'V', ' ', c1, c2, ' ', d1, d2] =>
      ['A', 'B', 'C', 'D', 'E', 'F', 'G', 'H', 'I'].contains c1 &&
      ['1', '2', '3', '4', '5', '6', '7', '8'].contains c2 &&
      ['A', 'B', 'C', 'D', 'E', 'F', 'G', 'H', 'I'].contains d1 &&
      ['1', '2', '3', '4', '5', '6', '7', '8'].contains d2
  | _ => false

/-- The handler selected by ResolveCommand's dispatch chain. -/
inductive GGCommand where
  | exitCmd
  | helpCmd
  | loadSampleCmd
  | setCmd
  | mvCmd
  | invalidCmd
deriving DecidableEq

/-- ResolveCommand dispatch (main.go 294-310): exact literals first, then
the SET pattern, then the MV pattern, else invalid. The handler side effects
are embedded separately (HandleSet, HandleMove, HandleExit). -/
def ResolveCommand (cmd : String) : GGCommand :=
  if cmd = "exit" then GGCommand.exitCmd
  else if cmd = "help" then GGCommand.helpCmd
  else if cmd = "loadsample" then GGCommand.loadSampleCmd
  else if setCmdRegex cmd then GGCommand.setCmd
  else if mvCmdRegex cmd then GGCommand.mvCmd
  else GGCommand.invalidCmd

/-- HandleSet (main.go 405-416): split the command on spaces, decode the
coordinate, and overwrite the addressed square with the new piece. -/
def GG.HandleSet (g : GG) (cmd : String) : GG :=
  let tokens := splitTokens cmd
  let player := tokens.getD 1 ""
  let coordinates := tokens.getD 2 ""
  let pieceCode := tokens.getD 3 ""
  let xy := coordinatesToSquareAddress coordinates
  { g with board := boardSet g.board xy.1.toNat xy.2.toNat ⟨⟨pieceCode, player⟩⟩ }

/-- Toggle at main.go 495-501: White hands the move to Black, anything else
hands it to White. -/
def togglePlayer (p : String) : String :=
  if p = "W" then "B" else "W"

/-- Body of HandleMove after coordinate decoding (main.go 454-502):
adjacency check, turn-ownership check, move-type dispatch, and the
turn switch after every non-invalid move. Board cells are addressed with
toNat; regex-validated MV commands always decode into 0..7 x 0..8. -/
def GG.HandleMoveAt (g : GG) (fromX fromY toX toY : Int) : GG :=
  if isOneSquareAway fromX fromY toX toY = false then g
  else
    let fromSquare := g.board fromX.toNat fromY.toNat
    let toSquare := g.board toX.toNat toY.toNat
    if fromSquare.piece.player ≠ g.playerToMove then g
    else
      let moveType := fromSquare.To toSquare
      let newBoard :=
        match moveType with
        | GGMoveType.MOVE =>
            boardSet (boardSet g.board toX.toNat toY.toNat fromSquare)
              fromX.toNat fromY.toNat ⟨⟨"", ""⟩⟩
        | GGMoveType.CHALLENGE =>
            match resolveChallenge fromSquare.piece toSquare.piece with
            | GGChallengeResult.WIN =>
                boardSet (boardSet g.board toX.toNat toY.toNat fromSquare)
                  fromX.toNat fromY.toNat ⟨⟨"", ""⟩⟩
            | GGChallengeResult.LOSE =>
                boardSet g.board fromX.toNat fromY.toNat ⟨⟨"", ""⟩⟩
            | GGChallengeResult.DRAW =>
                boardSet (boardSet g.board fromX.toNat fromY.toNat ⟨⟨"", ""⟩⟩)
                  toX.toNat toY.toNat ⟨⟨"", ""⟩⟩
        | GGMoveType.INVALID => g.board
      { g with
        board := newBoard
        playerToMove :=
          if moveType ≠ GGMoveType.INVALID then togglePlayer g.playerToMove
          else g.playerToMove }

/-- HandleMove (main.go 445-452): extract the two coordinates from the MV
command and apply the move body. -/
def GG.HandleMove (g : GG) (cmd : String) : GG :=
  let tokens := splitTokens cmd
  let fromC := coordinatesToSquareAddress (tokens.getD 1 "")
  let toC := coordinatesToSquareAddress (tokens.getD 2 "")
  g.HandleMoveAt fromC.1 fromC.2 toC.1 toC.2

/-- A board holding only a White flag, on square A1. -/
def onlyWhiteFlagBoard : GGBoard := boardSet emptyBoard 0 0 ⟨⟨"FLG", "W"⟩⟩

/-- An in-progress game whose board holds only a White flag. -/
def onlyWhiteFlagGame : GG :=
  ⟨GGGameState.IN_PROGRESS, "", "W", onlyWhiteFlagBoard⟩

/-- A game still in setup with a White flag placed on its goal rank
(row index 7, square E8). -/
def setupWhiteFlagRow7Game : GG :=
  ⟨GGGameState.SETUP, "", "W", boardSet emptyBoard 7 4 ⟨⟨"FLG", "W"⟩⟩⟩

/-- An in-progress game with a White sergeant on A1 and White to move. -/
def whiteSergeantGame : GG :=
  ⟨GGGameState.IN_PROGRESS, "", "W", boardSet emptyBoard 0 0 ⟨⟨"SGT", "W"⟩⟩⟩

example : resolveChallenge ⟨"FLG", "W"⟩ ⟨"FLG", "B"⟩ = GGChallengeResult.WIN := by decide
example : resolveChallenge ⟨"SPY", "W"⟩ ⟨"PVT", "B"⟩ = GGChallengeResult.LOSE := by decide
example : resolveChallenge ⟨"SGT", "W"⟩ ⟨"PVT", "B"⟩ = GGChallengeResult.WIN := by decide

example :
    flagFound (boardSet emptyBoard 0 0 ⟨⟨"FLG", "W"⟩⟩) "W" = true := by decide
example :
    flagFound (boardSet emptyBoard 0 0 ⟨⟨"FLG", "W"⟩⟩) "B" = false := by decide

example : coordinatesToSquareAddress "B7" = (6, 1) := by decide
example : squareAddressToCoordinates 1 6 = "B7" := by decide
example : squareAddressToCoordinates 0 9 = "A10" := by decide

example : normalizeCommand "  SET   W   A1   FLG  " = "SET W A1 FLG" := by decide
example : ResolveCommand "SET W A1 FLG" = GGCommand.setCmd := by decide
example : ResolveCommand "MV A1 A2" = GGCommand.mvCmd := by decide
example : splitTokens "SET W A1 FLG" = ["SET", "W", "A1", "FLG"] := by decide
example (g : GG) :
    ((g.HandleSet "SET W A1 FLG").board 0 0).piece = ⟨"FLG", "W"⟩ := rfl
example :
    (GG.HandleMove ⟨GGGameState.IN_PROGRESS, "", "W",
      boardSet emptyBoard 0 0 ⟨⟨"SGT", "W"⟩⟩⟩ "MV A1 A2").playerToMove = "B" := by decide
example :
    ((GG.HandleMove ⟨GGGameState.IN_PROGRESS, "", "W",
      boardSet emptyBoard 0 0 ⟨⟨"SGT", "W"⟩⟩⟩ "MV A1 A2").board 1 0).piece
      = ⟨"SGT", "W"⟩ := by decide

/-- C2: resolveChallenge yields a draw on every same-rank pair except
Flag-vs-Flag, which the challenger wins; a Flag challenging any other rank
loses. The player fields are arbitrary: combat only reads codes. -/
theorem resolve_same_rank_and_flag (pl1 pl2 : String) :
    (∀ p ∈ allRanks, p ≠ "FLG" →
      resolveChallenge ⟨p, pl1⟩ ⟨p, pl2⟩ = GGChallengeResult.DRAW) ∧
    resolveChallenge ⟨"FLG", pl1⟩ ⟨"FLG", pl2⟩ = GGChallengeResult.WIN ∧
    (∀ t ∈ allRanks, t ≠ "FLG" →
      resolveChallenge ⟨"FLG", pl1⟩ ⟨t, pl2⟩ = GGChallengeResult.LOSE) := by
  exact of_decide_eq_true rfl

/-- Witness for C2 at the sergeant and captain ranks. -/
theorem resolve_same_rank_and_flag_witness :
    resolveChallenge ⟨"SGT", "W"⟩ ⟨"SGT", "B"⟩ = GGChallengeResult.DRAW ∧
    resolveChallenge ⟨"FLG", "W"⟩ ⟨"CPT", "B"⟩ = GGChallengeResult.LOSE :=
  ⟨(resolve_same_rank_and_flag "W" "B").1 "SGT" (by decide) (by decide),
   (resolve_same_rank_and_flag "W" "B").2.2 "CPT" (by decide) (by decide)⟩

/-- C3: the Spy loses only to the Private and beats every other rank; the
Private beats the Spy; every basic rank (not Spy, Private or Flag) loses
when challenging a Spy. -/
theorem resolve_spy_private (pl1 pl2 : String) :
    resolveChallenge ⟨"SPY", pl1⟩ ⟨"PVT", pl2⟩ = GGChallengeResult.LOSE ∧
    (∀ r ∈ allRanks, r ≠ "PVT" → r ≠ "SPY" →
      resolveChallenge ⟨"SPY", pl1⟩ ⟨r, pl2⟩ = GGChallengeResult.WIN) ∧
    resolveChallenge ⟨"PVT", pl1⟩ ⟨"SPY", pl2⟩ = GGChallengeResult.WIN ∧
    (∀ b ∈ allRanks, b ≠ "SPY" → b ≠ "PVT" → b ≠ "FLG" →
      resolveChallenge ⟨b, pl1⟩ ⟨"SPY", pl2⟩ = GGChallengeResult.LOSE) := by
  exact of_decide_eq_true rfl

/-- Witness for C3 at the five-star general rank. -/
theorem resolve_spy_private_witness :
    resolveChallenge ⟨"SPY", "W"⟩ ⟨"5*G", "B"⟩ = GGChallengeResult.WIN ∧
    resolveChallenge ⟨"5*G", "W"⟩ ⟨"SPY", "B"⟩ = GGChallengeResult.LOSE :=
  ⟨(resolve_spy_private "W" "B").2.1 "5*G" (by decide) (by decide) (by decide),
   (resolve_spy_private "W" "B").2.2.2 "5*G" (by decide) (by decide) (by decide) (by decide)⟩

/-- C4: the Power table is as fixed in the source, and between two basic
ranks (neither Spy nor Flag) the higher power wins the challenge in either
direction. -/
theorem resolve_power_order (pl1 pl2 : String) :
    GGPiece.Power ⟨"5*G", pl1⟩ = 12 ∧
    GGPiece.Power ⟨"PVT", pl1⟩ = 0 ∧
    GGPiece.Power ⟨"SPY", pl1⟩ = 99 ∧
    GGPiece.Power ⟨"FLG", pl1⟩ = -1 ∧
    (∀ a ∈ allRanks, a ≠ "SPY" → a ≠ "FLG" →
      ∀ b ∈ allRanks, b ≠ "SPY" → b ≠ "FLG" →
        GGPiece.Power ⟨a, pl1⟩ > GGPiece.Power ⟨b, pl2⟩ →
        resolveChallenge ⟨a, pl1⟩ ⟨b, pl2⟩ = GGChallengeResult.WIN ∧
        resolveChallenge ⟨b, pl2⟩ ⟨a, pl1⟩ = GGChallengeResult.LOSE) := by
  exact of_decide_eq_true rfl

/-- Witness for C4 at colonel versus sergeant. -/
theorem resolve_power_order_witness :
    resolveChallenge ⟨"COL", "W"⟩ ⟨"SGT", "B"⟩ = GGChallengeResult.WIN ∧
    resolveChallenge ⟨"SGT", "B"⟩ ⟨"COL", "W"⟩ = GGChallengeResult.LOSE :=
  (resolve_power_order "W" "B").2.2.2.2 "COL" (by decide) (by decide) (by decide)
    "SGT" (by decide) (by decide) (by decide) (by decide)

/-- C5 counterexample: a from-square occupied by a piece whose player field
is empty, moving onto an empty target, is classified INVALID by the
same-player check (the empty target's piece also carries the empty player),
not MOVE as the claim requires for every occupied-from/empty-to pair. -/
theorem moveTypeFor_counterexample :
    GGSquare.IsEmpty ⟨⟨"SGT", ""⟩⟩ = false ∧
    GGSquare.IsEmpty ⟨⟨"", ""⟩⟩ = true ∧
    GGSquare.To ⟨⟨"SGT", ""⟩⟩ ⟨⟨"", ""⟩⟩ = GGMoveType.INVALID ∧
    GGMoveType.INVALID ≠ GGMoveType.MOVE := by
  decide

/-- C5 amended: To returns INVALID when from is empty or when the two
squares' pieces carry the same player field; when from is occupied and its
player differs from the target's, the result is MOVE on an empty target and
CHALLENGE on an occupied one. -/
theorem moveTypeFor_cases (s t : GGSquare) :
    (s.IsEmpty = true → s.To t = GGMoveType.INVALID) ∧
    (s.piece.player = t.piece.player → s.To t = GGMoveType.INVALID) ∧
    (s.IsEmpty = false → t.IsEmpty = true → s.piece.player ≠ t.piece.player →
      s.To t = GGMoveType.MOVE) ∧
    (s.IsEmpty = false → t.IsEmpty = false → s.piece.player ≠ t.piece.player →
      s.To t = GGMoveType.CHALLENGE) := by
  refine ⟨?_, ?_, ?_, ?_⟩ <;> intros <;> simp_all [GGSquare.To]

/-- Witness for C5's amended statement: a White sergeant moving onto an
empty square is a MOVE. -/
theorem moveTypeFor_cases_witness :
    GGSquare.To ⟨⟨"SGT", "W"⟩⟩ ⟨⟨"", ""⟩⟩ = GGMoveType.MOVE :=
  (moveTypeFor_cases ⟨⟨"SGT", "W"⟩⟩ ⟨⟨"", ""⟩⟩).2.2.1 (by decide) (by decide) (by decide)

/-- C7 counterexample: the decoder returns the pair (row, file); feeding that
pair to the encoder in the same order swaps the axes, so the round trip
fails already on the label A2. -/
theorem codec_round_trip_counterexample :
    coordinatesToSquareAddress "A2" = (1, 0) ∧
    squareAddressToCoordinates (coordinatesToSquareAddress "A2").1
      (coordinatesToSquareAddress "A2").2 = "B1" ∧
    ("B1" : String) ≠ "A2" := by
  decide

/-- C7 amended: for every valid label the encoder applied to the SWAPPED
components of the decoded pair (file component first, as the renderer calls
it) returns the label again, so the two maps are mutually inverse over the
valid range up to that argument order. -/
theorem codec_round_trip_swapped :
    ∀ c ∈ ['A', 'B', 'C', 'D', 'E', 'F', 'G', 'H', 'I'],
      ∀ d ∈ ['1', '2', '3', '4', '5', '6', '7', '8'],
        squareAddressToCoordinates
          (coordinatesToSquareAddress (String.mk [c, d])).2
          (coordinatesToSquareAddress (String.mk [c, d])).1 = String.mk [c, d] := by
  decide

/-- Witness for C7's amended statement at the label B7. -/
theorem codec_round_trip_swapped_witness :
    squareAddressToCoordinates
      (coordinatesToSquareAddress (String.mk ['B', '7'])).2
      (coordinatesToSquareAddress (String.mk ['B', '7'])).1 = String.mk ['B', '7'] :=
  codec_round_trip_swapped 'B' (by decide) '7' (by decide)

/-- C8 counterexample: the encoder's guard compares against the dimension
counts (x > 8 or y > 9), so the out-of-range 0-indexed row 9 is not
rejected: the result is the out-of-board label A10, not the empty string the
claim requires for every row above 8. -/
theorem encode_out_of_range_counterexample :
    ((9 : Int) > 8) ∧
    squareAddressToCoordinates 0 9 = "A10" ∧
    ("A10" : String) ≠ "" := by
  decide

/-- C8 amended: the encoder returns the empty string whenever the file index
exceeds 8 or the row index exceeds 9 (the guard uses the count constants
rows = 8 and files = 9), and returns a non-empty label on every input with
file in 0..8 and row in 0..9. -/
theorem encode_empty_guard (x y : Int) :
    (x > 8 ∨ y > 9 → squareAddressToCoordinates x y = "") ∧
    (0 ≤ x → x ≤ 8 → 0 ≤ y → y ≤ 9 → squareAddressToCoordinates x y ≠ "") := by
  constructor
  · intro h
    have h' : x > (rows : Int) ∨ y > (files : Int) := by
      simp only [rows, files]
      exact_mod_cast h
    simp [squareAddressToCoordinates, h']
  · intro h0x h8x h0y h9y hEq
    have hng : ¬(x > (rows : Int) ∨ y > (files : Int)) := by
      simp only [rows, files]
      push_cast
      omega
    rw [squareAddressToCoordinates, if_neg hng] at hEq
    have hlen := congrArg String.length hEq
    rw [String.length_append] at hlen
    have h1 : (alphaList.getD x.toNat "").length = 1 :=
      (show ∀ n : Nat, n ≤ 8 → (alphaList.getD n "").length = 1 by decide)
        x.toNat (by omega)
    have hz : String.length "" = 0 := rfl
    omega

/-- Witness for C8's amended statement: file index 9 is rejected with the
empty string. -/
theorem encode_empty_guard_witness :
    squareAddressToCoordinates 9 0 = "" :=
  (encode_empty_guard 9 0).1 (Or.inl (by norm_num))

/-- C9: the raw line "  SET   W   A1   FLG  " normalizes to "SET W A1 FLG",
which the dispatcher classifies as a SET command, and applying HandleSet to
it on any state places the piece with code FLG and player W on the square
decoded from A1 (row 0, file 0). -/
theorem set_command_scenario (g : GG) :
    normalizeCommand "  SET   W   A1   FLG  " = "SET W A1 FLG" ∧
    ResolveCommand (normalizeCommand "  SET   W   A1   FLG  ") = GGCommand.setCmd ∧
    coordinatesToSquareAddress "A1" = (0, 0) ∧
    ((g.HandleSet (normalizeCommand "  SET   W   A1   FLG  ")).board 0 0).piece
      = ⟨"FLG", "W"⟩ :=
  ⟨by decide, by decide, by decide, rfl⟩

theorem captureCheck_board (g : GG) : (captureCheck g).board = g.board := by
  unfold captureCheck
  split
  · split
    · rfl
    · split
      · rfl
      · rfl
  · rfl

theorem whiteRankCheck_board (g : GG) : (whiteRankCheck g).board = g.board := by
  unfold whiteRankCheck
  split
  · rfl
  · rfl

theorem rankFlag_false_of_flagFound_false (b : GGBoard) (p : String) (r : Nat)
    (hr : r < rows) (h : flagFound b p = false) : rankFlag b r p = false := by
  rw [Bool.eq_false_iff] at h ⊢
  intro hc
  apply h
  simp only [rankFlag, List.any_eq_true, List.mem_range, Bool.and_eq_true,
    beq_iff_eq] at hc
  obtain ⟨c, hcf, hpl, hcode⟩ := hc
  simp only [flagFound, List.any_eq_true, List.mem_range, Bool.and_eq_true,
    beq_iff_eq]
  exact ⟨r, hr, c, hcf, hcode, hpl⟩

/-- C1: on an in-progress board holding exactly one player's flag,
DetermineResult declares that player the winner and ends the game. -/
theorem determineResult_single_flag_wins (g : GG)
    (hst : g.status = GGGameState.IN_PROGRESS) :
    (flagFound g.board "W" = true → flagFound g.board "B" = false →
      (g.DetermineResult).winner = "W" ∧
      (g.DetermineResult).status = GGGameState.GAME_OVER) ∧
    (flagFound g.board "B" = true → flagFound g.board "W" = false →
      (g.DetermineResult).winner = "B" ∧
      (g.DetermineResult).status = GGGameState.GAME_OVER) := by
  constructor
  · intro hw hb
    have hb0 : rankFlag g.board 0 "B" = false :=
      rankFlag_false_of_flagFound_false g.board "B" 0 (by decide) hb
    have hcap : captureCheck g =
        { g with winner := "W", status := GGGameState.GAME_OVER } := by
      unfold captureCheck
      rw [hst]
      simp [hw, hb]
    unfold GG.DetermineResult
    rw [hcap]
    unfold whiteRankCheck blackRankCheck
    split <;> simp [hb0]
  · intro hb hw
    have hw7 : rankFlag g.board 7 "W" = false :=
      rankFlag_false_of_flagFound_false g.board "W" 7 (by decide) hw
    have hcap : captureCheck g =
        { g with winner := "B", status := GGGameState.GAME_OVER } := by
      unfold captureCheck
      rw [hst]
      simp [hw, hb]
    unfold GG.DetermineResult
    rw [hcap]
    unfold whiteRankCheck blackRankCheck
    simp [hw7, apply_ite GG.winner, apply_ite GG.status]

/-- Witness for C1: an in-progress board holding only a White flag yields
winner White and status GameOver. -/
theorem determineResult_single_flag_wins_witness :
    (onlyWhiteFlagGame.DetermineResult).winner = "W" ∧
    (onlyWhiteFlagGame.DetermineResult).status = GGGameState.GAME_OVER :=
  (determineResult_single_flag_wins onlyWhiteFlagGame rfl).1 (by decide) (by decide)

/-- C10: the two rank-crossing checks of DetermineResult run in every status:
a White flag on row index 7 forces GameOver (with winner White unless the
Black check, which runs last, also fires), and a Black flag on row index 0
forces GameOver with winner Black. -/
theorem determineResult_rank_checks_ungated (g : GG) :
    (rankFlag g.board 7 "W" = true →
      (g.DetermineResult).status = GGGameState.GAME_OVER) ∧
    (rankFlag g.board 7 "W" = true → rankFlag g.board 0 "B" = false →
      (g.DetermineResult).winner = "W") ∧
    (rankFlag g.board 0 "B" = true →
      (g.DetermineResult).status = GGGameState.GAME_OVER ∧
      (g.DetermineResult).winner = "B") := by
  have hcb : (captureCheck g).board = g.board := captureCheck_board g
  refine ⟨?_, ?_, ?_⟩
  · intro h7
    unfold GG.DetermineResult whiteRankCheck blackRankCheck
    simp [hcb, h7, apply_ite GG.status]
  · intro h7 h0
    unfold GG.DetermineResult whiteRankCheck blackRankCheck
    simp [hcb, h7, h0, apply_ite GG.winner]
  · intro h0
    have hwb : (whiteRankCheck (captureCheck g)).board = g.board := by
      rw [whiteRankCheck_board, captureCheck_board]
    unfold GG.DetermineResult blackRankCheck
    simp only [hwb, h0]
    exact ⟨rfl, rfl⟩

/-- Witness for C10: placing the White flag on row 7 during Setup
immediately ends the game in White's favour. -/
theorem determineResult_rank_checks_ungated_witness :
    (setupWhiteFlagRow7Game.DetermineResult).status = GGGameState.GAME_OVER ∧
    (setupWhiteFlagRow7Game.DetermineResult).winner = "W" :=
  ⟨(determineResult_rank_checks_ungated setupWhiteFlagRow7Game).1 (by decide),
   (determineResult_rank_checks_ungated setupWhiteFlagRow7Game).2.1
     (by decide) (by decide)⟩

/-- C6: a move rejected for adjacency, turn ownership, or an INVALID move
type leaves the whole state (board and player to move) unchanged; a MOVE or
CHALLENGE move toggles the player to move to the other player exactly
once. -/
theorem handleMove_reject_and_toggle (g : GG) (fromX fromY toX toY : Int) :
    (isOneSquareAway fromX fromY toX toY = false →
      g.HandleMoveAt fromX fromY toX toY = g) ∧
    ((g.board fromX.toNat fromY.toNat).piece.player ≠ g.playerToMove →
      g.HandleMoveAt fromX fromY toX toY = g) ∧
    ((g.board fromX.toNat fromY.toNat).To (g.board toX.toNat toY.toNat)
        = GGMoveType.INVALID →
      g.HandleMoveAt fromX fromY toX toY = g) ∧
    ((g.board fromX.toNat fromY.toNat).piece.player = g.playerToMove →
      ((g.board fromX.toNat fromY.toNat).To (g.board toX.toNat toY.toNat)
          = GGMoveType.MOVE ∨
       (g.board fromX.toNat fromY.toNat).To (g.board toX.toNat toY.toNat)
          = GGMoveType.CHALLENGE) →
      isOneSquareAway fromX fromY toX toY = true →
      (g.playerToMove = "W" →
        (g.HandleMoveAt fromX fromY toX toY).playerToMove = "B") ∧
      (g.playerToMove = "B" →
        (g.HandleMoveAt fromX fromY toX toY).playerToMove = "W")) := by
  refine ⟨?_, ?_, ?_, ?_⟩
  · intro h
    unfold GG.HandleMoveAt
    simp [h]
  · intro h
    unfold GG.HandleMoveAt
    split
    · rfl
    · simp [h]
  · intro h
    unfold GG.HandleMoveAt
    split
    · rfl
    · simp [h]
  · intro hown hmt hone
    unfold GG.HandleMoveAt
    simp only [hone]
    rcases hmt with h | h <;>
      constructor <;> intro hp <;> simp [h, hown, togglePlayer, hp]

/-- Witness for C6: a White sergeant stepping from A1 to the empty A2 hands
the move to Black. -/
theorem handleMove_reject_and_toggle_witness :
    (whiteSergeantGame.HandleMoveAt 0 0 1 0).playerToMove = "B" :=
  ((handleMove_reject_and_toggle whiteSergeantGame 0 0 1 0).2.2.2
    (by decide) (Or.inl (by decide)) (by decide)).1 rfl
